import Mathlib

/-!
# Authentication and authorisation core of the ERP backend

A shallow embedding of `handlers/auth.go`, `middleware/auth.go`,
`models/user.go`, and the order handlers of `handlers/order.go` with
`models/order.go`.

* The `users` collection is a list of documents; `FindOne` returns the first
  document matching the filter and `UpdateOne` patches the first document
  matching the filter.
* Everything a handler reads from the outside world is an explicit argument:
  the decoded request body (`none` when JSON decoding fails), the value drawn
  by `rand.Intn`, the readings of `time.Now().Unix()`, and whether the store
  update, the SMS gateway, or the token signing reports an error.
* Everything a handler does to the outside world is part of its result: the
  HTTP response, the store afterwards, the calls made to `sendSMS`, the calls
  made to the downstream handler.
* The JWT library is an external dependency. Its MAC is a parameter
  (`Config.hmac`); its parser is modelled after `Parser.ParseWithClaims` of
  `github.com/dgrijalva/jwt-go`, which reports every verification failure as a
  `*ValidationError` carrying a set of flags.
* The bcrypt library is an external dependency and a parameter (`Bcrypt`); what
  is assumed of it is stated as a hypothesis where it is used.
* The order handlers name their database; the client maps a database name to
  the `orders` collection of that database.
-/

namespace Erp

/-! ## models/user.go -/

/-- The `User` document of `models/user.go`. `ID` stands for the ObjectID. -/
structure User where
  ID : Nat
  Username : String
  Password : String
  Role : String
  PhoneNumber : String
  OTP : String
  OTPExpiresAt : Int
  deriving DecidableEq, Repr

/-- The `users` collection, in the store's natural order. -/
abbrev Store := List User

/-- Embeds `collection.FindOne(ctx, bson.M{"phone_number": phone}).Decode(&user)`:
the first document whose phone number is `phone`; `none` is the error case. -/
def FindOneByPhone (db : Store) (phone : String) : Option User :=
  db.find? (fun u => decide (u.PhoneNumber = phone))

/-- Embeds `collection.UpdateOne(ctx, bson.M{"_id": id}, bson.M{"$set": ...})` with the
two keys `otp` and `otp_expires_at`: the first document whose `_id` is `id` gets
the two fields replaced, nothing else is touched. -/
def UpdateOneOTP (db : Store) (id : Nat) (otp : String) (expiresAt : Int) : Store :=
  match db with
  | [] => []
  | u :: rest =>
    if u.ID = id then { u with OTP := otp, OTPExpiresAt := expiresAt } :: rest
    else u :: UpdateOneOTP rest id otp expiresAt

/-! ## JWT library (external) -/

/-- The `jwt.StandardClaims` record. -/
structure StandardClaims where
  Audience : String
  ExpiresAt : Int
  Id : String
  IssuedAt : Int
  Issuer : String
  NotBefore : Int
  Subject : String
  deriving DecidableEq, Repr

/-- The `Claims` record of `handlers/auth.go`: username, role, and the embedded
standard claims. -/
structure Claims where
  Username : String
  Role : String
  StandardClaims : StandardClaims
  deriving DecidableEq, Repr

/-- The value of a `token` cookie. Either a string that is not the compact
serialisation of a token (`raw`), or a serialised token carrying claims and a
signature (`jws`). -/
inductive TokenString where
  | raw (s : String)
  | jws (claims : Claims) (signature : List Nat)
  deriving DecidableEq, Repr

/-- The process-wide signing configuration: the secret `JwtKey` and the MAC of
the signing method (HS256), which maps a key and the signed content to a
signature. -/
structure Config where
  JwtKey : List Nat
  hmac : List Nat → Claims → List Nat

/-- The flags of a `jwt.ValidationError`. -/
inductive ValidationFlag where
  | Malformed
  | Unverifiable
  | SignatureInvalid
  | Expired
  | IssuedAt
  | NotValidYet
  deriving DecidableEq, Repr

/-- The errors `jwt.ParseWithClaims` deals in: the package-level sentinel
`jwt.ErrSignatureInvalid`, and a `*jwt.ValidationError` with its flag set. -/
inductive JwtError where
  | ErrSignatureInvalid
  | ValidationError (Errors : List ValidationFlag)
  deriving DecidableEq, Repr

/-- The `jwt.Token` as far as the middleware reads it. -/
structure Token where
  Claims : Claims
  Valid : Bool
  deriving DecidableEq, Repr

/-- The library helper `verifyExp`: an unset expiry (0) passes unless required. -/
def verifyExp (exp now : Int) (required : Bool) : Bool :=
  if exp = 0 then !required else decide (now ≤ exp)

/-- The library helper `verifyIat`. -/
def verifyIat (iat now : Int) (required : Bool) : Bool :=
  if iat = 0 then !required else decide (iat ≤ now)

/-- The library helper `verifyNbf`. -/
def verifyNbf (nbf now : Int) (required : Bool) : Bool :=
  if nbf = 0 then !required else decide (nbf ≤ now)

/-- The flags `StandardClaims.Valid()` collects at time `now`; the claims are
valid when there are none. -/
def StandardClaims.ValidFlags (c : StandardClaims) (now : Int) : List ValidationFlag :=
  (if verifyExp c.ExpiresAt now false then [] else [ValidationFlag.Expired]) ++
  (if verifyIat c.IssuedAt now false then [] else [ValidationFlag.IssuedAt]) ++
  (if verifyNbf c.NotBefore now false then [] else [ValidationFlag.NotValidYet])

/-- Embeds `token.SignedString(key)` for a token built by `jwt.NewWithClaims`. -/
def SignedString (cfg : Config) (claims : Claims) (key : List Nat) : TokenString :=
  TokenString.jws claims (cfg.hmac key claims)

/-- Embeds `jwt.ParseWithClaims(tokenStr, claims, keyFunc)` where `keyFunc` always
returns `key`, at time `now`. A string that does not split and decode is
reported as `ValidationError` with the `Malformed` flag and no token. Otherwise
the claims are validated, then the signature is checked, and any failure comes
back as one `ValidationError` holding the collected flags. -/
def ParseWithClaims (cfg : Config) (now : Int) (tokenStr : TokenString) (key : List Nat) :
    Option Token × Option JwtError :=
  match tokenStr with
  | TokenString.raw _ => (none, some (JwtError.ValidationError [ValidationFlag.Malformed]))
  | TokenString.jws claims signature =>
    let claimFlags := claims.StandardClaims.ValidFlags now
    let sigFlags :=
      if signature = cfg.hmac key claims then [] else [ValidationFlag.SignatureInvalid]
    let flags := claimFlags ++ sigFlags
    if flags = [] then (some { Claims := claims, Valid := true }, none)
    else (some { Claims := claims, Valid := false }, some (JwtError.ValidationError flags))

/-! ## HTTP -/

/-- An `http.Cookie`: name, value, and the `Expires` attribute in epoch seconds. -/
structure Cookie where
  Name : String
  Value : TokenString
  Expires : Int
  deriving DecidableEq, Repr

/-- What a handler wrote to the `http.ResponseWriter`. -/
structure Response where
  status : Nat
  body : String
  cookies : List Cookie
  deriving DecidableEq, Repr

/-- Embeds `http.Error(w, msg, code)`. -/
def httpError (msg : String) (code : Nat) : Response :=
  { status := code, body := msg ++ "\n", cookies := [] }

/-- The request context: the values attached by `context.WithValue`, newest first. -/
abbrev Context := List (String × Claims)

/-- Embeds `ctx.Value(key)`. -/
def Context.Value (ctx : Context) (key : String) : Option Claims :=
  (ctx.find? (fun kv => decide (kv.1 = key))).map Prod.snd

/-- Embeds `context.WithValue(ctx, key, v)`. -/
def Context.WithValue (ctx : Context) (key : String) (v : Claims) : Context :=
  (key, v) :: ctx

/-- An incoming request as the middleware reads it: its cookies and its context. -/
structure Request where
  Cookies : List Cookie
  ctx : Context
  deriving DecidableEq, Repr

/-- Embeds `r.Cookie(name)`: the first cookie with that name; `none` is `http.ErrNoCookie`. -/
def Request.Cookie (r : Request) (name : String) : Option Cookie :=
  r.Cookies.find? (fun c => decide (c.Name = name))

/-- What a middleware did with a request: the error response it wrote itself, if
any, and the requests it handed to `next.ServeHTTP`, in order. -/
structure Served where
  written : Option Response
  next : List Request
  deriving DecidableEq, Repr

/-! ## handlers/auth.go -/

/-- The decoded body of `/request-otp` and `/verify-otp`. -/
structure OTPRequest where
  PhoneNumber : String
  OTP : String
  deriving DecidableEq, Repr

/-- Embeds `fmt.Sprintf("%06d", n)` for a non-negative `n`: the decimal digits of `n`,
padded on the left with zeros to a width of six. -/
def sprintf06d (n : Nat) : String :=
  let ds := Nat.toDigits 10 n
  String.mk (List.replicate (6 - ds.length) '0' ++ ds)

/-- Embeds `generateOTP`, given the value `draw` returned by `rand.Intn(1000000)`. -/
def generateOTP (draw : Nat) : String :=
  sprintf06d draw

/-- One call of `sendSMS(to, body)`. -/
structure SMS where
  toNumber : String
  body : String
  deriving DecidableEq, Repr

/-- The result of a handler that may write to the store and send messages. -/
structure Outcome where
  response : Response
  store : Store
  sms : List SMS
  deriving DecidableEq, Repr

/-- Embeds `RequestOTPHandler`. `body` is the decoded request (`none`: decoding failed),
`draw` the value of `rand.Intn(1000000)`, `now` the reading of
`time.Now().Unix()`, `updateErr` and `smsErr` whether `UpdateOne` and `sendSMS`
return an error. -/
def RequestOTPHandler (db : Store) (body : Option OTPRequest) (draw : Nat) (now : Int)
    (updateErr smsErr : Bool) : Outcome :=
  match body with
  | none => { response := httpError "Bad request" 400, store := db, sms := [] }
  | some phoneRequest =>
    match FindOneByPhone db phoneRequest.PhoneNumber with
    | none => { response := httpError "User not found" 404, store := db, sms := [] }
    | some user =>
      let otp := generateOTP draw
      let expirationTime := now + 5 * 60
      if updateErr then
        { response := httpError "Internal server error" 500, store := db, sms := [] }
      else
        let db1 := UpdateOneOTP db user.ID otp expirationTime
        let msg : SMS := { toNumber := phoneRequest.PhoneNumber, body := "Your OTP is: " ++ otp }
        if smsErr then
          { response := httpError "Failed to send OTP" 500, store := db1, sms := [msg] }
        else
          { response := { status := 200, body := "OTP sent successfully", cookies := [] },
            store := db1, sms := [msg] }

/-- Embeds `VerifyOTPHandler`. `body` is the decoded request, `nowCheck` the reading of
`time.Now().Unix()` in the expiry test, `nowIssue` the reading used for the
token expiry, `signErr` whether `SignedString` returns an error. -/
def VerifyOTPHandler (cfg : Config) (db : Store) (body : Option OTPRequest)
    (nowCheck nowIssue : Int) (signErr : Bool) : Outcome :=
  match body with
  | none => { response := httpError "Bad request" 400, store := db, sms := [] }
  | some otpRequest =>
    match FindOneByPhone db otpRequest.PhoneNumber with
    | none => { response := httpError "User not found" 404, store := db, sms := [] }
    | some user =>
      if user.OTP ≠ otpRequest.OTP ∨ nowCheck > user.OTPExpiresAt then
        { response := httpError "Invalid or expired OTP" 401, store := db, sms := [] }
      else
        let expirationTime := nowIssue + 24 * 3600
        let claims : Claims :=
          { Username := user.Username, Role := "",
            StandardClaims :=
              { Audience := "", ExpiresAt := expirationTime, Id := "", IssuedAt := 0,
                Issuer := "", NotBefore := 0, Subject := "" } }
        if signErr then
          { response := httpError "Internal server error" 500, store := db, sms := [] }
        else
          let tokenString := SignedString cfg claims cfg.JwtKey
          { response :=
              { status := 200, body := "Login successful",
                cookies := [{ Name := "token", Value := tokenString, Expires := expirationTime }] },
            store := db, sms := [] }

/-! ## middleware/auth.go -/

/-- Embeds `JwtAuthMiddleware(next)` serving request `r` at time `now`.
`r.Cookie` fails only with `http.ErrNoCookie`, so the 400 answer for any other
cookie error has no case here. The parser never returns a nil token together
with a nil error; that combination is listed only to make the match complete. -/
def JwtAuthMiddleware (cfg : Config) (now : Int) (r : Request) : Served :=
  match r.Cookie "token" with
  | none => { written := some (httpError "Unauthorized" 401), next := [] }
  | some cookie =>
    match ParseWithClaims cfg now cookie.Value cfg.JwtKey with
    | (_, some err) =>
      if err = JwtError.ErrSignatureInvalid then
        { written := some (httpError "Unauthorized" 401), next := [] }
      else
        { written := some (httpError "Bad request" 400), next := [] }
    | (none, none) => { written := some (httpError "Unauthorized" 401), next := [] }
    | (some token, none) =>
      if !token.Valid then
        { written := some (httpError "Unauthorized" 401), next := [] }
      else
        { written := none,
          next := [{ r with ctx := Context.WithValue r.ctx "user" token.Claims }] }

/-- The `unicode.SimpleFold` orbit test of `strings.EqualFold` for a pair of runes
`lo < hi` with `hi` outside ASCII: the Unicode case-folding table is not part
of the program and is a parameter. -/
abbrev FoldTable := Nat → Nat → Bool

/-- One step of `strings.EqualFold`: do the runes `sr` and `tr` match? -/
def runeEqualFold (orbit : FoldTable) (sr tr : Nat) : Bool :=
  if tr = sr then true
  else
    let lo := min sr tr
    let hi := max sr tr
    if hi < 128 then decide (65 ≤ lo ∧ lo ≤ 90 ∧ hi = lo + 32)
    else orbit lo hi

/-- Embeds `strings.EqualFold(s, t)` on the runes of the two strings. -/
def EqualFoldRunes (orbit : FoldTable) : List Char → List Char → Bool
  | [], [] => true
  | [], _ :: _ => false
  | _ :: _, [] => false
  | s :: ss, t :: ts => runeEqualFold orbit s.toNat t.toNat && EqualFoldRunes orbit ss ts

/-- Embeds `strings.EqualFold(s, t)`. -/
def EqualFold (orbit : FoldTable) (s t : String) : Bool :=
  EqualFoldRunes orbit s.toList t.toList

/-- Embeds `RoleMiddleware(requiredRole)(next)` serving request `r`. -/
def RoleMiddleware (orbit : FoldTable) (requiredRole : String) (r : Request) : Served :=
  match r.ctx.Value "user" with
  | none => { written := some (httpError "Unauthorized" 401), next := [] }
  | some userClaims =>
    if !EqualFold orbit userClaims.Role requiredRole then
      { written := some (httpError "Forbidden" 403), next := [] }
    else
      { written := none, next := [r] }

/-! ## Signup: `SignUpHandler` -/

/-- The bcrypt library as the handlers use it. `GenerateFromPassword password
cost salt` is the hash computed with the drawn salt, or `none` when the library
reports an error; `CompareHashAndPassword hash password` tells whether the hash
validates against the password. -/
structure Bcrypt where
  GenerateFromPassword : String → Nat → List Nat → Option String
  CompareHashAndPassword : String → String → Bool

/-- The constant `bcrypt.DefaultCost`. -/
def DefaultCost : Nat := 10

/-- Embeds `collection.InsertOne(ctx, user)` on the `users` collection. The `_id`
is `omitempty`: a zero id is left out and the driver supplies `freshID`. The
insert fails when the store reports an error or the id is already taken;
otherwise the document is appended. -/
def InsertOneUser (db : Store) (user : User) (freshID : Nat) (insertErr : Bool) :
    Option (Nat × Store) :=
  let id := if user.ID = 0 then freshID else user.ID
  if insertErr ∨ id ∈ db.map User.ID then none
  else some (id, db ++ [{ user with ID := id }])

/-- Embeds `SignUpHandler`. `body` is the request decoded into a `User` (`none`:
decoding failed), `salt` the salt bcrypt draws, `freshID` the id the driver
would generate, `insertErr` whether the store reports an error. The 200 answer
carries the encoded insert result, represented by the inserted id. -/
def SignUpHandler (B : Bcrypt) (db : Store) (body : Option User) (salt : List Nat)
    (freshID : Nat) (insertErr : Bool) : Outcome :=
  match body with
  | none => { response := httpError "Bad request" 400, store := db, sms := [] }
  | some user =>
    match B.GenerateFromPassword user.Password DefaultCost salt with
    | none => { response := httpError "Internal server error" 500, store := db, sms := [] }
    | some hashedPassword =>
      let user1 := { user with Password := hashedPassword }
      match InsertOneUser db user1 freshID insertErr with
      | none => { response := httpError "Internal server error" 500, store := db, sms := [] }
      | some (id, db1) =>
        { response := { status := 200, body := toString id, cookies := [] },
          store := db1, sms := [] }

/-! ## models/order.go and handlers/order.go -/

/-- The `Order` document of `models/order.go`; the three ids stand for ObjectIDs,
0 for the zero ObjectID. -/
structure Order where
  ID : Nat
  UserID : Nat
  StoreID : Nat
  Product : String
  Quantity : Int
  OrderStatus : String
  CreationDate : Int
  deriving DecidableEq, Repr

/-- The reach of `config.Client` for the order handlers: the `orders` collection
of each database, by database name. -/
abbrev Client := String → List Order

/-- The client after the `orders` collection of database `name` became `orders`. -/
def Client.withOrders (c : Client) (name : String) (orders : List Order) : Client :=
  fun n => if n = name then orders else c n

/-- What an order handler answered and the client afterwards. `orders` is the
encoded list of the listing handlers, `body` any other text written. -/
structure OrderOutcome where
  status : Nat
  body : String
  orders : List Order
  client : Client

/-- Embeds `collection.InsertOne(ctx, order)` on an `orders` collection, with the
same treatment of the `omitempty` id as for users. -/
def InsertOneOrder (coll : List Order) (order : Order) (freshID : Nat) (insertErr : Bool) :
    Option (Nat × List Order) :=
  let id := if order.ID = 0 then freshID else order.ID
  if insertErr ∨ id ∈ coll.map Order.ID then none
  else some (id, coll ++ [{ order with ID := id }])

/-- Embeds `collection.UpdateOne(ctx, bson.M{"_id": id}, $set order_status)`: the
first document with that id gets the status; no match is not an error. -/
def UpdateOneStatus (coll : List Order) (id : Nat) (status : String) : List Order :=
  match coll with
  | [] => []
  | o :: rest =>
    if o.ID = id then { o with OrderStatus := status } :: rest
    else o :: UpdateOneStatus rest id status

/-- Embeds `collection.Find(ctx, bson.M{"user_id": userID})`. The field `user_id`
is `omitempty`, so a document with the zero user id has no such field and
matches no query. -/
def FindByUser (coll : List Order) (userID : Nat) : List Order :=
  coll.filter (fun o => decide (o.UserID = userID ∧ o.UserID ≠ 0))

/-- Embeds `CreateOrderHandler`. `order` is what decoding the body left in the
struct (the decoding error is ignored), `now` the reading of
`time.Now().Unix()`. It inserts into database "customer_vendor_api". -/
def CreateOrderHandler (c : Client) (order : Order) (now : Int) (freshID : Nat)
    (insertErr : Bool) : OrderOutcome :=
  let order1 := { order with CreationDate := now, OrderStatus := "Pending" }
  match InsertOneOrder (c "customer_vendor_api") order1 freshID insertErr with
  | none => { status := 500, body := "Internal server error\n", orders := [], client := c }
  | some (id, coll) =>
    { status := 200, body := toString id, orders := [],
      client := c.withOrders "customer_vendor_api" coll }

/-- Embeds `GetUserOrdersHandler`. `userID` is the parsed `user_id` query value
(0 when it does not parse), `findErr` whether `Find` reports an error. It reads
database "customer_vendor_api". -/
def GetUserOrdersHandler (c : Client) (userID : Nat) (findErr : Bool) : OrderOutcome :=
  if findErr then
    { status := 500, body := "Internal server error\n", orders := [], client := c }
  else
    { status := 200, body := "", orders := FindByUser (c "customer_vendor_api") userID,
      client := c }

/-- Embeds `CancelOrderHandler`. `orderID` is the parsed `order_id` query value
(0 when it does not parse), `updateErr` whether `UpdateOne` reports an error. It
updates database "adonai-api". -/
def CancelOrderHandler (c : Client) (orderID : Nat) (updateErr : Bool) : OrderOutcome :=
  if updateErr then
    { status := 500, body := "Internal server error\n", orders := [], client := c }
  else
    { status := 200, body := "\"Order cancelled\"\n", orders := [],
      client := c.withOrders "adonai-api" (UpdateOneStatus (c "adonai-api") orderID "Cancelled") }

/-! ## Reading a code back -/

/-- The number a string of decimal digits denotes (most significant digit
first), as `strconv.Atoi` reads it. -/
def decimalValue (cs : List Char) : Nat :=
  cs.foldl (fun acc c => 10 * acc + (c.toNat - 48)) 0

/-! ## Sample data -/

/-- The claims a serialised token carries, read without any verification. -/
def TokenString.claims? : TokenString → Option Claims
  | TokenString.raw _ => none
  | TokenString.jws claims _ => some claims

/-- A signing configuration for the examples: a three-byte secret and a toy MAC
that appends the lengths of the signed names and the expiry to the key. -/
def sampleConfig : Config :=
  { JwtKey := [1, 2, 3],
    hmac := fun key claims =>
      key ++ [claims.Username.length, claims.Role.length, claims.StandardClaims.ExpiresAt.natAbs] }

/-- A vendor account with a pending code. -/
def alice : User :=
  { ID := 1, Username := "alice", Password := "$2a$10$N9qo8uLOickgx2ZMRZoMye", Role := "vendor",
    PhoneNumber := "+15550001111", OTP := "123456", OTPExpiresAt := 1700000300 }

/-- A customer account that has never requested a code. -/
def bob : User :=
  { ID := 2, Username := "bob", Password := "$2a$10$7EqJtq98hPqEX7fNZaFWoO", Role := "customer",
    PhoneNumber := "+15550002222", OTP := "", OTPExpiresAt := 0 }

/-- A store holding the two sample accounts. -/
def sampleStore : Store := [alice, bob]

/-- The body of a verification request for the first sample account with the
stored code. -/
def aliceVerify : OTPRequest := { PhoneNumber := "+15550001111", OTP := "123456" }

/-- A request carrying one `token` cookie with the given value and an empty
context. -/
def requestWithToken (value : TokenString) : Request :=
  { Cookies := [{ Name := "token", Value := value, Expires := 0 }], ctx := [] }

/-- A well-formed token naming a vendor, with a signature that is not the MAC of
its content under the sample secret. -/
def forgedToken : TokenString :=
  TokenString.jws
    { Username := "mallory", Role := "vendor",
      StandardClaims :=
        { Audience := "", ExpiresAt := 1800000000, Id := "", IssuedAt := 0, Issuer := "",
          NotBefore := 0, Subject := "" } }
    [9, 9, 9]

/-- The cookies set by a successful verification of the first sample account at
second 1700000000. -/
def aliceCookies : List Cookie :=
  (VerifyOTPHandler sampleConfig sampleStore (some aliceVerify) 1700000000 1700000000
    false).response.cookies

/-- The body of a request naming a phone number no sample account has. -/
def strangerRequest : OTPRequest := { PhoneNumber := "+15559999999", OTP := "123456" }

/-- A request whose context holds claims with the role "vendor" under the key
"user". -/
def vendorRequest : Request :=
  { Cookies := [],
    ctx := [("user",
      { Username := "alice", Role := "vendor",
        StandardClaims :=
          { Audience := "", ExpiresAt := 1700086400, Id := "", IssuedAt := 0, Issuer := "",
            NotBefore := 0, Subject := "" } })] }

/-- A fold table with no pairs outside ASCII. -/
def noFold : FoldTable := fun _ _ => false

/-- Lower-casing of an ASCII code point: the letters A to Z move up by 32. -/
def asciiLower (n : Nat) : Nat :=
  if 65 ≤ n ∧ n ≤ 90 then n + 32 else n

/-- A stand-in for bcrypt in the examples: the hash is a fixed marker followed
by the password, so it validates against that password and is never the
password itself. -/
def sampleBcrypt : Bcrypt :=
  { GenerateFromPassword := fun password _ _ => some ("$2a$10$" ++ password),
    CompareHashAndPassword := fun hash password => decide (hash = "$2a$10$" ++ password) }

/-- A signup payload with no OTP fields set. -/
def carolSignup : User :=
  { ID := 0, Username := "carol", Password := "p", Role := "customer",
    PhoneNumber := "+15550003333", OTP := "", OTPExpiresAt := 0 }

/-- A signup payload that sets the OTP fields itself. -/
def eveSignup : User :=
  { ID := 0, Username := "eve", Password := "p", Role := "vendor",
    PhoneNumber := "+15550004444", OTP := "000000", OTPExpiresAt := 4102444800 }

/-- The body of an order request: two units of tea for user 7, with a status of
its own. -/
def teaOrder : Order :=
  { ID := 0, UserID := 7, StoreID := 3, Product := "tea", Quantity := 2,
    OrderStatus := "Delivered", CreationDate := 0 }

/-- A client whose databases hold no orders. -/
def emptyClient : Client := fun _ => []

/-- The client after the sample order was created at second 1700000000 with the
driver-generated id 501. -/
def teaClient : Client :=
  (CreateOrderHandler emptyClient teaOrder 1700000000 501 false).client

/-- The store after the second sample payload signed up. -/
def eveStore : Store :=
  (SignUpHandler sampleBcrypt sampleStore (some eveSignup) [] 3 false).store

/-! ## Code generation: `generateOTP` -/

theorem digitChar_decimal (d : Nat) (h : d < 10) :
    ('0' ≤ Nat.digitChar d ∧ Nat.digitChar d ≤ '9') ∧ (Nat.digitChar d).toNat - 48 = d := by
  interval_cases d <;> decide

theorem toDigitsCore_decimal (fuel : Nat) : ∀ (n : Nat) (ds : List Char),
    (∀ c ∈ ds, '0' ≤ c ∧ c ≤ '9') →
    ∀ c ∈ Nat.toDigitsCore 10 fuel n ds, '0' ≤ c ∧ c ≤ '9' := by
  induction fuel with
  | zero => intro n ds h; simpa [Nat.toDigitsCore] using h
  | succ f ih =>
    intro n ds h
    have hd := (digitChar_decimal (n % 10) (Nat.mod_lt _ (by decide))).1
    have hcons : ∀ c ∈ Nat.digitChar (n % 10) :: ds, '0' ≤ c ∧ c ≤ '9' := by
      intro c hc
      rcases List.mem_cons.mp hc with rfl | hc
      · exact hd
      · exact h c hc
    simp only [Nat.toDigitsCore]
    split
    · exact hcons
    · exact ih _ _ hcons

theorem decimalValue_foldl (cs : List Char) (a : Nat) :
    cs.foldl (fun acc c => 10 * acc + (c.toNat - 48)) a = a * 10 ^ cs.length + decimalValue cs := by
  induction cs generalizing a with
  | nil => simp [decimalValue]
  | cons c cs ih =>
    simp only [decimalValue, List.foldl_cons, List.length_cons] at ih ⊢
    rw [ih (10 * a + (c.toNat - 48)), ih (10 * 0 + (c.toNat - 48))]
    ring

theorem decimalValue_cons (c : Char) (cs : List Char) :
    decimalValue (c :: cs) = (c.toNat - 48) * 10 ^ cs.length + decimalValue cs := by
  have h := decimalValue_foldl cs (10 * 0 + (c.toNat - 48))
  simp only [decimalValue, List.foldl_cons] at h ⊢
  rw [h]
  ring

theorem toDigitsCore_value (fuel : Nat) : ∀ (n : Nat) (ds : List Char), n < fuel →
    decimalValue (Nat.toDigitsCore 10 fuel n ds) = n * 10 ^ ds.length + decimalValue ds := by
  induction fuel with
  | zero => intro n ds h; omega
  | succ f ih =>
    intro n ds h
    have hd := (digitChar_decimal (n % 10) (Nat.mod_lt _ (by decide))).2
    simp only [Nat.toDigitsCore]
    split
    · next h0 =>
      rw [decimalValue_cons, hd]
      have : n % 10 = n := by omega
      rw [this]
    · next h0 =>
      have hlt : n / 10 < f := by omega
      rw [ih _ _ hlt, decimalValue_cons, hd, List.length_cons, pow_succ]
      have hn : n = 10 * (n / 10) + n % 10 := (Nat.div_add_mod n 10).symm
      nth_rewrite 3 [hn]
      ring

theorem decimalValue_zeros (k : Nat) (cs : List Char) :
    decimalValue (List.replicate k '0' ++ cs) = decimalValue cs := by
  induction k with
  | zero => simp
  | succ k ih =>
    rw [List.replicate_succ, List.cons_append, decimalValue_cons, ih]
    have : ('0' : Char).toNat - 48 = 0 := by decide
    rw [this]
    simp

/-- C8: for every value `n` below 1000000 drawn by the generator, `generateOTP`
returns a string of exactly six characters, each a decimal digit, whose numeric
value is `n`. -/
theorem generateOTP_six_digits (n : Nat) (h : n < 1000000) :
    (generateOTP n).length = 6 ∧
    (∀ c ∈ (generateOTP n).toList, '0' ≤ c ∧ c ≤ '9') ∧
    decimalValue (generateOTP n).toList = n := by
  have hlen : (Nat.toDigits 10 n).length ≤ 6 :=
    Nat.toDigitsCore_length 10 (by decide) (n + 1) n 6 (by simpa using h) (by decide)
  refine ⟨?_, ?_, ?_⟩
  · simp only [generateOTP, sprintf06d, String.length, List.length_append, List.length_replicate]
    omega
  · intro c hc
    simp only [generateOTP, sprintf06d, String.toList, List.mem_append, List.mem_replicate] at hc
    rcases hc with ⟨_, rfl⟩ | hc
    · decide
    · exact toDigitsCore_decimal (n + 1) n [] (by simp) c hc
  · simp only [generateOTP, sprintf06d, String.toList]
    rw [decimalValue_zeros]
    have := toDigitsCore_value (n + 1) n [] (by omega)
    simpa [Nat.toDigits, decimalValue] using this

/-- Witness for C8 at the draw 42, whose code is "000042". -/
theorem generateOTP_six_digits_witness :
    (42 : Nat) < 1000000 ∧ generateOTP 42 = "000042" ∧
    ((generateOTP 42).length = 6 ∧
      (∀ c ∈ (generateOTP 42).toList, '0' ≤ c ∧ c ≤ '9') ∧
      decimalValue (generateOTP 42).toList = 42) :=
  ⟨by decide, by decide, generateOTP_six_digits 42 (by decide)⟩

/-! ## Store lookups and updates -/

theorem FindOneByPhone_some {db : Store} {phone : String} {user : User}
    (h : FindOneByPhone db phone = some user) : user ∈ db ∧ user.PhoneNumber = phone := by
  unfold FindOneByPhone at h
  exact ⟨List.mem_of_find?_eq_some h, by simpa using List.find?_some h⟩

theorem FindOneByPhone_none {db : Store} {phone : String}
    (h : ∀ u ∈ db, u.PhoneNumber ≠ phone) : FindOneByPhone db phone = none := by
  unfold FindOneByPhone
  rw [List.find?_eq_none]
  intro u hu
  simpa using h u hu

theorem UpdateOneOTP_eq_map (otp : String) (expiresAt : Int) (user : User) :
    ∀ (db : Store), (db.map User.ID).Nodup → user ∈ db →
      UpdateOneOTP db user.ID otp expiresAt =
        db.map (fun u => if u = user then { user with OTP := otp, OTPExpiresAt := expiresAt } else u) := by
  intro db
  induction db with
  | nil => intro _ h; simp at h
  | cons u rest ih =>
    intro hnd hmem
    rw [List.map_cons, List.nodup_cons] at hnd
    obtain ⟨hnot, hrest⟩ := hnd
    unfold UpdateOneOTP
    by_cases hid : u.ID = user.ID
    · have hu : u = user := by
        rcases List.mem_cons.mp hmem with h | h
        · exact h.symm
        · exact absurd (List.mem_map.mpr ⟨user, h, hid.symm⟩) hnot
      subst hu
      have hid2 : ∀ v ∈ rest, (if v = u then { u with OTP := otp, OTPExpiresAt := expiresAt } else v) = v := by
        intro v hv
        have : v ≠ u := by
          intro hvu
          exact hnot (List.mem_map.mpr ⟨v, hv, by rw [hvu]⟩)
        simp [this]
      have hmap : rest.map (fun v => if v = u then
          { u with OTP := otp, OTPExpiresAt := expiresAt } else v) = rest.map id :=
        List.map_congr_left (by intro v hv; simpa using hid2 v hv)
      simp only [if_true, List.map_cons]
      rw [hmap, List.map_id]
    · have hne : u ≠ user := fun h => hid (by rw [h])
      have hmem2 : user ∈ rest := by
        rcases List.mem_cons.mp hmem with h | h
        · exact absurd h.symm hne
        · exact h
      simp only [hid, hne, if_false, List.map_cons]
      rw [ih hrest hmem2]

/-! ## Code verification: `VerifyOTPHandler` -/

theorem VerifyOTPHandler_found (cfg : Config) (db : Store) (req : OTPRequest) (user : User)
    (nowCheck nowIssue : Int) (signErr : Bool)
    (hfound : FindOneByPhone db req.PhoneNumber = some user) :
    VerifyOTPHandler cfg db (some req) nowCheck nowIssue signErr =
      if user.OTP ≠ req.OTP ∨ nowCheck > user.OTPExpiresAt then
        { response := httpError "Invalid or expired OTP" 401, store := db, sms := [] }
      else if signErr then
        { response := httpError "Internal server error" 500, store := db, sms := [] }
      else
        { response :=
            { status := 200, body := "Login successful",
              cookies :=
                [{ Name := "token",
                   Value := SignedString cfg
                     { Username := user.Username, Role := "",
                       StandardClaims :=
                         { Audience := "", ExpiresAt := nowIssue + 24 * 3600, Id := "",
                           IssuedAt := 0, Issuer := "", NotBefore := 0, Subject := "" } }
                     cfg.JwtKey,
                   Expires := nowIssue + 24 * 3600 }] },
          store := db, sms := [] } := by
  simp only [VerifyOTPHandler, hfound]

theorem set_char_ne (l : List Char) (i : Nat) (c : Char) (hi : i < l.length)
    (hc : l[i]? ≠ some c) : String.mk (l.set i c) ≠ String.mk l := by
  intro h
  have hl : l.set i c = l := by injection h
  have h1 : (l.set i c)[i]? = some c := by simp [hi]
  rw [hl] at h1
  exact hc h1

/-- C1: for an existing account, with the body decoded and signing succeeding,
`VerifyOTPHandler` answers 200 with a `token` cookie exactly when the submitted
code equals the stored code and the current second is at most the stored
expiry, and answers 401 otherwise; a code with one character replaced is
rejected, and the stored code is accepted at exactly the expiry second. -/
theorem VerifyOTPHandler_accepts_iff (cfg : Config) (db : Store) (req : OTPRequest)
    (user : User) (nowCheck nowIssue : Int)
    (hfound : FindOneByPhone db req.PhoneNumber = some user) :
    (((VerifyOTPHandler cfg db (some req) nowCheck nowIssue false).response.status = 200 ∧
        ∃ c ∈ (VerifyOTPHandler cfg db (some req) nowCheck nowIssue false).response.cookies,
          c.Name = "token") ↔
      (req.OTP = user.OTP ∧ nowCheck ≤ user.OTPExpiresAt)) ∧
    (¬ (req.OTP = user.OTP ∧ nowCheck ≤ user.OTPExpiresAt) →
      (VerifyOTPHandler cfg db (some req) nowCheck nowIssue false).response =
        httpError "Invalid or expired OTP" 401) ∧
    (∀ (i : Nat) (c : Char), i < user.OTP.toList.length → user.OTP.toList[i]? ≠ some c →
      (VerifyOTPHandler cfg db (some { req with OTP := String.mk (user.OTP.toList.set i c) })
        nowCheck nowIssue false).response.status = 401) ∧
    (VerifyOTPHandler cfg db (some { req with OTP := user.OTP })
        user.OTPExpiresAt nowIssue false).response.status = 200 := by
  refine ⟨?_, ?_, ?_, ?_⟩
  · rw [VerifyOTPHandler_found cfg db req user nowCheck nowIssue false hfound]
    by_cases h : user.OTP ≠ req.OTP ∨ nowCheck > user.OTPExpiresAt
    · rw [if_pos h]
      constructor
      · intro h1
        simp [httpError] at h1
      · rintro ⟨h1, h2⟩
        rcases h with h | h
        · exact absurd h1.symm h
        · omega
    · rw [if_neg h]
      have h' : req.OTP = user.OTP ∧ nowCheck ≤ user.OTPExpiresAt := by
        constructor
        · by_contra hne
          exact h (Or.inl (fun e => hne e.symm))
        · by_contra hgt
          exact h (Or.inr (by omega))
      simp [h']
  · intro hno
    rw [VerifyOTPHandler_found cfg db req user nowCheck nowIssue false hfound]
    have h : user.OTP ≠ req.OTP ∨ nowCheck > user.OTPExpiresAt := by
      by_contra hcon
      apply hno
      constructor
      · by_contra hne
        exact hcon (Or.inl (fun e => hne e.symm))
      · by_contra hgt
        exact hcon (Or.inr (by omega))
    rw [if_pos h]
  · intro i c hi hc
    rw [VerifyOTPHandler_found cfg db
      { PhoneNumber := req.PhoneNumber, OTP := String.mk (user.OTP.toList.set i c) }
      user nowCheck nowIssue false hfound]
    have hne : user.OTP ≠ String.mk (user.OTP.toList.set i c) := by
      intro e
      have := set_char_ne user.OTP.toList i c hi hc
      exact this e.symm
    rw [if_pos (Or.inl hne)]
    rfl
  · rw [VerifyOTPHandler_found cfg db { PhoneNumber := req.PhoneNumber, OTP := user.OTP }
      user user.OTPExpiresAt nowIssue false hfound]
    simp

/-- Witness for C1: the first sample account, its stored code, submitted at the
expiry second. -/
theorem VerifyOTPHandler_accepts_iff_witness :
    FindOneByPhone sampleStore aliceVerify.PhoneNumber = some alice ∧
    (VerifyOTPHandler sampleConfig sampleStore (some aliceVerify) 1700000300 1700000300
      false).response.status = 200 ∧
    (VerifyOTPHandler sampleConfig sampleStore
      (some { PhoneNumber := "+15550001111", OTP := "123457" }) 1700000300 1700000300
      false).response.status = 401 :=
  ⟨by decide,
   (VerifyOTPHandler_accepts_iff sampleConfig sampleStore aliceVerify alice 1700000300
      1700000300 (by decide)).2.2.2,
   (VerifyOTPHandler_accepts_iff sampleConfig sampleStore aliceVerify alice 1700000300
      1700000300 (by decide)).2.2.1 5 '7' (by decide) (by decide)⟩

/-- Every token minted by `VerifyOTPHandler` names the account and carries an
empty role. -/
theorem VerifyOTPHandler_claims (cfg : Config) (db : Store) (req : OTPRequest) (user : User)
    (nowCheck nowIssue : Int) (signErr : Bool)
    (hfound : FindOneByPhone db req.PhoneNumber = some user)
    (hok : (VerifyOTPHandler cfg db (some req) nowCheck nowIssue signErr).response.status = 200) :
    ∃ cookie claims,
      (VerifyOTPHandler cfg db (some req) nowCheck nowIssue signErr).response.cookies = [cookie] ∧
      cookie.Value.claims? = some claims ∧
      claims.Username = user.Username ∧ claims.Role = "" := by
  rw [VerifyOTPHandler_found cfg db req user nowCheck nowIssue signErr hfound] at hok ⊢
  split_ifs at hok ⊢ with h1 h2
  · simp [httpError] at hok
  · simp [httpError] at hok
  · exact ⟨_, _, rfl, rfl, rfl, rfl⟩

/-- C2: at the vendor account of the sample store, the successful verification
mints claims with the account's username but with an empty role, not the role
"vendor" of the account. -/
theorem VerifyOTPHandler_token_role_empty :
    (VerifyOTPHandler sampleConfig sampleStore (some aliceVerify) 1700000000 1700000000
      false).response.status = 200 ∧
    aliceCookies.map (fun c => c.Value.claims?.map (fun cl => (cl.Username, cl.Role))) =
      [some ("alice", "")] ∧
    alice.Role = "vendor" := by
  decide

/-! ## Session verification: `JwtAuthMiddleware` -/

theorem ValidFlags_nil_iff (c : StandardClaims) (now : Int) :
    c.ValidFlags now = [] ↔
      (c.ExpiresAt = 0 ∨ now ≤ c.ExpiresAt) ∧ (c.IssuedAt = 0 ∨ c.IssuedAt ≤ now) ∧
      (c.NotBefore = 0 ∨ c.NotBefore ≤ now) := by
  unfold StandardClaims.ValidFlags verifyExp verifyIat verifyNbf
  by_cases h1 : c.ExpiresAt = 0 <;> by_cases h2 : c.IssuedAt = 0 <;>
    by_cases h3 : c.NotBefore = 0 <;> by_cases h4 : now ≤ c.ExpiresAt <;>
    by_cases h5 : c.IssuedAt ≤ now <;> by_cases h6 : c.NotBefore ≤ now <;>
    simp [h1, h2, h3, h4, h5, h6]

theorem JwtAuthMiddleware_no_cookie (cfg : Config) (now : Int) (r : Request)
    (hc : r.Cookie "token" = none) :
    JwtAuthMiddleware cfg now r = { written := some (httpError "Unauthorized" 401), next := [] } := by
  simp only [JwtAuthMiddleware, hc]

theorem JwtAuthMiddleware_raw (cfg : Config) (now : Int) (r : Request) (cookie : Cookie)
    (raw : String) (hc : r.Cookie "token" = some cookie)
    (hv : cookie.Value = TokenString.raw raw) :
    JwtAuthMiddleware cfg now r = { written := some (httpError "Bad request" 400), next := [] } := by
  simp [JwtAuthMiddleware, ParseWithClaims, hc, hv]

theorem JwtAuthMiddleware_jws (cfg : Config) (now : Int) (r : Request) (cookie : Cookie)
    (claims : Claims) (sig : List Nat) (hc : r.Cookie "token" = some cookie)
    (hv : cookie.Value = TokenString.jws claims sig) :
    JwtAuthMiddleware cfg now r =
      if claims.StandardClaims.ValidFlags now = [] ∧ sig = cfg.hmac cfg.JwtKey claims then
        { written := none, next := [{ r with ctx := Context.WithValue r.ctx "user" claims }] }
      else
        { written := some (httpError "Bad request" 400), next := [] } := by
  by_cases hs : sig = cfg.hmac cfg.JwtKey claims <;>
    by_cases hf : claims.StandardClaims.ValidFlags now = [] <;>
    simp [JwtAuthMiddleware, ParseWithClaims, hc, hv, hs, hf]

/-- C3: a token minted at second `T` (at or after the epoch) expires at exactly
`T + 86400`, and `JwtAuthMiddleware` passes a request carrying it at second `t`
exactly when `t ≤ T + 86400`: it passes at `T + 23h59m` and at `T + 24h`, and is
turned away at `T + 24h00m01s`. -/
theorem session_token_window (cfg : Config) (db : Store) (req : OTPRequest) (user : User)
    (nowCheck T : Int) (hfound : FindOneByPhone db req.PhoneNumber = some user)
    (hotp : req.OTP = user.OTP) (hexp : nowCheck ≤ user.OTPExpiresAt) (hT : 0 ≤ T) :
    ∃ cookie claims,
      (VerifyOTPHandler cfg db (some req) nowCheck T false).response.cookies = [cookie] ∧
      cookie.Name = "token" ∧ cookie.Expires = T + 86400 ∧
      cookie.Value.claims? = some claims ∧ claims.StandardClaims.ExpiresAt = T + 86400 ∧
      (∀ (t : Int) (r : Request) (sent : Cookie), r.Cookie "token" = some sent →
        sent.Value = cookie.Value →
        (((JwtAuthMiddleware cfg t r).next.length = 1 ↔ t ≤ T + 86400) ∧
         ((JwtAuthMiddleware cfg t r).next = [] ↔ T + 86400 < t))) ∧
      (JwtAuthMiddleware cfg (T + 86340) (requestWithToken cookie.Value)).next.length = 1 ∧
      (JwtAuthMiddleware cfg (T + 86400) (requestWithToken cookie.Value)).next.length = 1 ∧
      (JwtAuthMiddleware cfg (T + 86401) (requestWithToken cookie.Value)).next = [] := by
  rw [VerifyOTPHandler_found cfg db req user nowCheck T false hfound]
  have hcond : ¬ (user.OTP ≠ req.OTP ∨ nowCheck > user.OTPExpiresAt) := by
    rintro (h | h)
    · exact h hotp.symm
    · omega
  rw [if_neg hcond]
  have hflags : ∀ t : Int,
      (StandardClaims.ValidFlags
        { Audience := "", ExpiresAt := T + 24 * 3600, Id := "", IssuedAt := 0, Issuer := "",
          NotBefore := 0, Subject := "" } t = [] ↔ t ≤ T + 86400) := by
    intro t
    rw [ValidFlags_nil_iff]
    simp only
    constructor
    · rintro ⟨h | h, _, _⟩ <;> omega
    · intro h
      exact ⟨Or.inr (by omega), by simp, by simp⟩
  have hwin : ∀ (t : Int) (r : Request) (sent : Cookie), r.Cookie "token" = some sent →
      sent.Value = SignedString cfg
        { Username := user.Username, Role := "",
          StandardClaims :=
            { Audience := "", ExpiresAt := T + 24 * 3600, Id := "", IssuedAt := 0,
              Issuer := "", NotBefore := 0, Subject := "" } } cfg.JwtKey →
      (((JwtAuthMiddleware cfg t r).next.length = 1 ↔ t ≤ T + 86400) ∧
       ((JwtAuthMiddleware cfg t r).next = [] ↔ T + 86400 < t)) := by
    intro t r sent hr hv
    rw [JwtAuthMiddleware_jws cfg t r sent _ _ hr hv]
    by_cases ht : t ≤ T + 86400
    · have := (hflags t).mpr ht
      simp only [this, true_and, if_true]
      constructor
      · simp [ht]
      · simp
        omega
    · have hn : ¬ StandardClaims.ValidFlags
          { Audience := "", ExpiresAt := T + 24 * 3600, Id := "", IssuedAt := 0, Issuer := "",
            NotBefore := 0, Subject := "" } t = [] := fun h => ht ((hflags t).mp h)
      simp only [hn, false_and, if_false]
      constructor
      · simp [ht]
      · simp
        omega
  refine ⟨_, _, rfl, rfl, by simp only; ring, rfl, by simp only; ring, hwin, ?_, ?_, ?_⟩
  · exact ((hwin (T + 86340) (requestWithToken _) _ (by simp [requestWithToken, Request.Cookie]; rfl) rfl).1).mpr
      (by omega)
  · exact ((hwin (T + 86400) (requestWithToken _) _ (by simp [requestWithToken, Request.Cookie]; rfl) rfl).1).mpr
      (by omega)
  · exact ((hwin (T + 86401) (requestWithToken _) _ (by simp [requestWithToken, Request.Cookie]; rfl) rfl).2).mpr
      (by omega)

/-- Witness for C3: the first sample account verifying at second 1700000000. -/
theorem session_token_window_witness :
    FindOneByPhone sampleStore aliceVerify.PhoneNumber = some alice ∧
    aliceVerify.OTP = alice.OTP ∧ (1700000000 : Int) ≤ alice.OTPExpiresAt ∧
    (0 : Int) ≤ 1700000000 ∧
    ∃ cookie claims,
      (VerifyOTPHandler sampleConfig sampleStore (some aliceVerify) 1700000000 1700000000
        false).response.cookies = [cookie] ∧
      cookie.Name = "token" ∧ cookie.Expires = 1700000000 + 86400 ∧
      cookie.Value.claims? = some claims ∧
      claims.StandardClaims.ExpiresAt = 1700000000 + 86400 ∧
      (∀ (t : Int) (r : Request) (sent : Cookie), r.Cookie "token" = some sent →
        sent.Value = cookie.Value →
        (((JwtAuthMiddleware sampleConfig t r).next.length = 1 ↔ t ≤ 1700000000 + 86400) ∧
         ((JwtAuthMiddleware sampleConfig t r).next = [] ↔ 1700000000 + 86400 < t))) ∧
      (JwtAuthMiddleware sampleConfig (1700000000 + 86340)
        (requestWithToken cookie.Value)).next.length = 1 ∧
      (JwtAuthMiddleware sampleConfig (1700000000 + 86400)
        (requestWithToken cookie.Value)).next.length = 1 ∧
      (JwtAuthMiddleware sampleConfig (1700000000 + 86401)
        (requestWithToken cookie.Value)).next = [] :=
  ⟨by decide, by decide, by decide, by decide,
   session_token_window sampleConfig sampleStore aliceVerify alice 1700000000 1700000000
     (by decide) (by decide) (by decide) (by decide)⟩

/-- C4: `JwtAuthMiddleware` calls the downstream handler exactly when the
request has a `token` cookie holding a well-formed token whose signature is the
MAC of its content under the server secret and whose time claims hold at the
current second; when it calls the handler it calls it once, with the decoded
claims in the context under the key "user" and nothing written; otherwise the
handler is not called and a 401 or 400 is written. -/
theorem JwtAuthMiddleware_invokes_iff (cfg : Config) (now : Int) (r : Request) :
    ((JwtAuthMiddleware cfg now r).next ≠ [] ↔
      ∃ cookie claims, r.Cookie "token" = some cookie ∧
        cookie.Value = TokenString.jws claims (cfg.hmac cfg.JwtKey claims) ∧
        (claims.StandardClaims.ExpiresAt = 0 ∨ now ≤ claims.StandardClaims.ExpiresAt) ∧
        (claims.StandardClaims.IssuedAt = 0 ∨ claims.StandardClaims.IssuedAt ≤ now) ∧
        (claims.StandardClaims.NotBefore = 0 ∨ claims.StandardClaims.NotBefore ≤ now)) ∧
    ((JwtAuthMiddleware cfg now r).next ≠ [] →
      ∃ cookie claims passed, r.Cookie "token" = some cookie ∧
        cookie.Value.claims? = some claims ∧
        (JwtAuthMiddleware cfg now r).next = [passed] ∧
        passed.ctx.Value "user" = some claims ∧ passed.Cookies = r.Cookies ∧
        (JwtAuthMiddleware cfg now r).written = none) ∧
    ((JwtAuthMiddleware cfg now r).next = [] →
      ∃ resp, (JwtAuthMiddleware cfg now r).written = some resp ∧
        (resp.status = 401 ∨ resp.status = 400)) := by
  cases hc : r.Cookie "token" with
  | none =>
    rw [JwtAuthMiddleware_no_cookie cfg now r hc]
    refine ⟨?_, ?_, ?_⟩
    · simp
    · simp
    · intro _
      exact ⟨_, rfl, Or.inl rfl⟩
  | some cookie =>
    cases hv : cookie.Value with
    | raw str =>
      rw [JwtAuthMiddleware_raw cfg now r cookie str hc hv]
      refine ⟨?_, ?_, ?_⟩
      · simp [hv]
      · simp
      · intro _
        exact ⟨_, rfl, Or.inr rfl⟩
    | jws claims sig =>
      rw [JwtAuthMiddleware_jws cfg now r cookie claims sig hc hv]
      by_cases hok : claims.StandardClaims.ValidFlags now = [] ∧ sig = cfg.hmac cfg.JwtKey claims
      · rw [if_pos hok]
        refine ⟨?_, ?_, ?_⟩
        · constructor
          · intro _
            refine ⟨cookie, claims, rfl, ?_, (ValidFlags_nil_iff _ _).mp hok.1⟩
            rw [hv, hok.2]
          · intro _
            simp
        · intro _
          refine ⟨cookie, claims, _, rfl, ?_, rfl, ?_, rfl, rfl⟩
          · rw [hv]; rfl
          · simp [Context.Value, Context.WithValue]
        · intro h
          simp at h
      · rw [if_neg hok]
        refine ⟨?_, ?_, ?_⟩
        · constructor
          · intro h
            exact absurd rfl h
          · rintro ⟨cookie2, claims2, h1, h2, h3⟩
            exfalso
            apply hok
            have hck : cookie2 = cookie := by injection h1 with h1; exact h1.symm
            subst hck
            rw [hv] at h2
            injection h2 with hcl hsig
            subst hcl
            exact ⟨(ValidFlags_nil_iff _ _).mpr h3, hsig⟩
        · intro h
          exact absurd rfl h
        · intro _
          exact ⟨_, rfl, Or.inr rfl⟩

/-- C5: with no `token` cookie the middleware answers 401, and with a string
that is not a token it answers 400; but for a well-formed token whose signature
is not valid under the server secret it answers 400, not 401. -/
theorem JwtAuthMiddleware_bad_signature_400 :
    JwtAuthMiddleware sampleConfig 1700000000 { Cookies := [], ctx := [] } =
      { written := some (httpError "Unauthorized" 401), next := [] } ∧
    JwtAuthMiddleware sampleConfig 1700000000 (requestWithToken (TokenString.raw "not-a-token")) =
      { written := some (httpError "Bad request" 400), next := [] } ∧
    forgedToken.claims?.map (fun c => sampleConfig.hmac sampleConfig.JwtKey c) = some [1, 2, 3, 7, 6, 1800000000] ∧
    JwtAuthMiddleware sampleConfig 1700000000 (requestWithToken forgedToken) =
      { written := some (httpError "Bad request" 400), next := [] } := by
  decide

/-- C6: the token minted for the first sample account at second 1700000000,
presented one second after its expiry, is answered with 400, not 401; the
downstream handler is not called. -/
theorem JwtAuthMiddleware_expired_400 :
    aliceCookies.map (fun c => c.Value.claims?.map (fun cl => cl.StandardClaims.ExpiresAt)) =
      [some 1700086400] ∧
    aliceCookies.map (fun c => JwtAuthMiddleware sampleConfig 1700086400 (requestWithToken c.Value)) =
      [{ written := none,
         next := [{ Cookies := (requestWithToken (SignedString sampleConfig
                      { Username := "alice", Role := "",
                        StandardClaims :=
                          { Audience := "", ExpiresAt := 1700086400, Id := "", IssuedAt := 0,
                            Issuer := "", NotBefore := 0, Subject := "" } }
                      sampleConfig.JwtKey)).Cookies,
                    ctx := [("user",
                      { Username := "alice", Role := "",
                        StandardClaims :=
                          { Audience := "", ExpiresAt := 1700086400, Id := "", IssuedAt := 0,
                            Issuer := "", NotBefore := 0, Subject := "" } })] }] }] ∧
    aliceCookies.map (fun c => JwtAuthMiddleware sampleConfig 1700086401 (requestWithToken c.Value)) =
      [{ written := some (httpError "Bad request" 400), next := [] }] := by
  decide

/-! ## Role check: `RoleMiddleware` -/

theorem runeEqualFold_ascii (orbit : FoldTable) (sr tr : Nat) (hs : sr < 128) (ht : tr < 128) :
    runeEqualFold orbit sr tr = true ↔ asciiLower sr = asciiLower tr := by
  unfold runeEqualFold asciiLower
  by_cases h : tr = sr
  · simp [h]
  · have hhi : max sr tr < 128 := max_lt hs ht
    simp only [h, if_false, hhi, if_true, decide_eq_true_eq]
    rcases le_total sr tr with hle | hle
    · rw [min_eq_left hle, max_eq_right hle]
      split_ifs <;> omega
    · rw [min_eq_right hle, max_eq_left hle]
      split_ifs <;> omega

theorem EqualFoldRunes_ascii (orbit : FoldTable) : ∀ (s t : List Char),
    (∀ c ∈ s, c.toNat < 128) → (∀ c ∈ t, c.toNat < 128) →
    (EqualFoldRunes orbit s t = true ↔
      s.map (fun c => asciiLower c.toNat) = t.map (fun c => asciiLower c.toNat)) := by
  intro s
  induction s with
  | nil =>
    intro t _ _
    cases t <;> simp [EqualFoldRunes]
  | cons a s ih =>
    intro t hs ht
    cases t with
    | nil => simp [EqualFoldRunes]
    | cons b t =>
      have ha : a.toNat < 128 := hs a (List.mem_cons_self _ _)
      have hb : b.toNat < 128 := ht b (List.mem_cons_self _ _)
      have ih2 := ih t (fun c hc => hs c (List.mem_cons_of_mem _ hc))
        (fun c hc => ht c (List.mem_cons_of_mem _ hc))
      simp only [EqualFoldRunes, Bool.and_eq_true, List.map_cons, List.cons.injEq]
      rw [runeEqualFold_ascii orbit _ _ ha hb, ih2]

/-- C7: `RoleMiddleware(R)` answers 401 without calling the handler when the
context holds no claims; otherwise it calls the handler (once, with the request
unchanged) exactly when the role in the claims equals `R` under
`strings.EqualFold`, which on ASCII roles is equality after lower-casing, and
answers 403 without calling the handler on a mismatch. Claims with the role
"vendor" pass the requirements "vendor" and "Vendor" and fail "customer". -/
theorem RoleMiddleware_gate (orbit : FoldTable) (R : String) (r : Request) :
    (r.ctx.Value "user" = none →
      RoleMiddleware orbit R r = { written := some (httpError "Unauthorized" 401), next := [] }) ∧
    (∀ claims, r.ctx.Value "user" = some claims →
      ((RoleMiddleware orbit R r).next ≠ [] ↔ EqualFold orbit claims.Role R = true) ∧
      (EqualFold orbit claims.Role R = true →
        RoleMiddleware orbit R r = { written := none, next := [r] }) ∧
      (EqualFold orbit claims.Role R = false →
        RoleMiddleware orbit R r = { written := some (httpError "Forbidden" 403), next := [] }) ∧
      ((∀ c ∈ claims.Role.toList, c.toNat < 128) → (∀ c ∈ R.toList, c.toNat < 128) →
        (EqualFold orbit claims.Role R = true ↔
          claims.Role.toList.map (fun c => asciiLower c.toNat) =
            R.toList.map (fun c => asciiLower c.toNat)))) ∧
    RoleMiddleware orbit "vendor" vendorRequest = { written := none, next := [vendorRequest] } ∧
    RoleMiddleware orbit "Vendor" vendorRequest = { written := none, next := [vendorRequest] } ∧
    RoleMiddleware orbit "customer" vendorRequest =
      { written := some (httpError "Forbidden" 403), next := [] } := by
  refine ⟨?_, ?_, ?_, ?_, ?_⟩
  · intro h
    simp only [RoleMiddleware, h]
  · intro claims h
    refine ⟨?_, ?_, ?_, ?_⟩
    · cases hf : EqualFold orbit claims.Role R <;> simp [RoleMiddleware, h, hf]
    · intro hf
      simp [RoleMiddleware, h, hf]
    · intro hf
      simp [RoleMiddleware, h, hf]
    · intro h1 h2
      exact EqualFoldRunes_ascii orbit _ _ h1 h2
  · rfl
  · rfl
  · rfl

/-- Witness for C7: the vendor request against the requirement "Vendor", and a
request with an empty context. -/
theorem RoleMiddleware_gate_witness :
    vendorRequest.ctx.Value "user" ≠ none ∧
    (RoleMiddleware noFold "Vendor" vendorRequest).next = [vendorRequest] ∧
    RoleMiddleware noFold "vendor" { Cookies := [], ctx := [] } =
      { written := some (httpError "Unauthorized" 401), next := [] } :=
  ⟨by decide,
   congrArg Served.next (RoleMiddleware_gate noFold "Vendor" vendorRequest).2.2.2.1,
   (RoleMiddleware_gate noFold "vendor" { Cookies := [], ctx := [] }).1 (by decide)⟩

/-! ## Code issuance: `RequestOTPHandler` -/

theorem find_after_update (phone : String) (user updated : User)
    (hphone : updated.PhoneNumber = user.PhoneNumber) : ∀ (db : Store),
    FindOneByPhone db phone = some user →
    FindOneByPhone (db.map (fun u => if u = user then updated else u)) phone = some updated := by
  intro db
  induction db with
  | nil => intro h; simp [FindOneByPhone] at h
  | cons u rest ih =>
    intro h
    have hup := (FindOneByPhone_some h).2
    unfold FindOneByPhone at h ih ⊢
    rw [List.map_cons]
    by_cases hp : u.PhoneNumber = phone
    · rw [List.find?_cons_of_pos _ (by simpa using hp)] at h
      have hu : u = user := by injection h
      rw [if_pos hu, List.find?_cons_of_pos _ (by simp [hphone, hup])]
    · have hne : u ≠ user := by
        intro e
        rw [e] at hp
        exact hp hup
      rw [List.find?_cons_of_neg _ (by simpa using hp)] at h
      rw [if_neg hne, List.find?_cons_of_neg _ (by simpa using hp)]
      exact ih h

/-- C9: when `RequestOTPHandler` answers 200 for an existing account at second
`now` (in a store with unique ids), the store afterwards is the store before
with that account's `otp` replaced by the generated code and `otp_expires_at` by
`now + 300`, every other field and every other account unchanged, and exactly
one SMS was sent, to the requested number, with body "Your OTP is: " followed by
that same code. -/
theorem RequestOTPHandler_success (db : Store) (req : OTPRequest) (user : User) (draw : Nat)
    (now : Int) (updateErr smsErr : Bool)
    (hfound : FindOneByPhone db req.PhoneNumber = some user)
    (hids : (db.map User.ID).Nodup)
    (hok : (RequestOTPHandler db (some req) draw now updateErr smsErr).response.status = 200) :
    (RequestOTPHandler db (some req) draw now updateErr smsErr).store =
      db.map (fun u => if u = user then
        { user with OTP := generateOTP draw, OTPExpiresAt := now + 300 } else u) ∧
    FindOneByPhone (RequestOTPHandler db (some req) draw now updateErr smsErr).store
        req.PhoneNumber =
      some { user with OTP := generateOTP draw, OTPExpiresAt := now + 300 } ∧
    (RequestOTPHandler db (some req) draw now updateErr smsErr).sms =
      [{ toNumber := req.PhoneNumber, body := "Your OTP is: " ++ generateOTP draw }] := by
  have hmem := (FindOneByPhone_some hfound).1
  have hu : updateErr = false := by
    cases updateErr
    · rfl
    · simp [RequestOTPHandler, hfound, httpError] at hok
  have hs : smsErr = false := by
    cases smsErr
    · rfl
    · subst hu
      simp [RequestOTPHandler, hfound, httpError] at hok
  subst hu hs
  have hstore : (RequestOTPHandler db (some req) draw now false false).store =
      db.map (fun u => if u = user then
        { user with OTP := generateOTP draw, OTPExpiresAt := now + 300 } else u) := by
    simp only [RequestOTPHandler, hfound]
    have := UpdateOneOTP_eq_map (generateOTP draw) (now + 5 * 60) user db hids hmem
    simpa using this
  refine ⟨hstore, ?_, ?_⟩
  · rw [hstore]
    exact find_after_update req.PhoneNumber user
      { user with OTP := generateOTP draw, OTPExpiresAt := now + 300 } rfl db hfound
  · simp [RequestOTPHandler, hfound]

/-- Witness for C9: a request for the first sample account at second
1700000000 with the draw 42. -/
theorem RequestOTPHandler_success_witness :
    FindOneByPhone sampleStore aliceVerify.PhoneNumber = some alice ∧
    (sampleStore.map User.ID).Nodup ∧
    (RequestOTPHandler sampleStore (some aliceVerify) 42 1700000000 false false).response.status
      = 200 ∧
    (RequestOTPHandler sampleStore (some aliceVerify) 42 1700000000 false false).store =
      [{ alice with OTP := "000042", OTPExpiresAt := 1700000300 }, bob] ∧
    (RequestOTPHandler sampleStore (some aliceVerify) 42 1700000000 false false).sms =
      [{ toNumber := "+15550001111", body := "Your OTP is: 000042" }] :=
  ⟨by decide, by decide, by decide, by decide,
   (RequestOTPHandler_success sampleStore aliceVerify alice 42 1700000000 false false
     (by decide) (by decide) (by decide)).2.2⟩

/-! ## Unknown phone numbers -/

/-- C10: for a phone number that no account in the store has, `RequestOTPHandler`
answers 404, leaves the store as it was and sends no SMS, and
`VerifyOTPHandler` answers 404, leaves the store as it was and sets no cookie. -/
theorem unknown_phone_404 (cfg : Config) (db : Store) (req : OTPRequest) (draw : Nat)
    (now nowCheck nowIssue : Int) (updateErr smsErr signErr : Bool)
    (hno : ∀ u ∈ db, u.PhoneNumber ≠ req.PhoneNumber) :
    ((RequestOTPHandler db (some req) draw now updateErr smsErr).response.status = 404 ∧
      (RequestOTPHandler db (some req) draw now updateErr smsErr).store = db ∧
      (RequestOTPHandler db (some req) draw now updateErr smsErr).sms = []) ∧
    ((VerifyOTPHandler cfg db (some req) nowCheck nowIssue signErr).response.status = 404 ∧
      (VerifyOTPHandler cfg db (some req) nowCheck nowIssue signErr).store = db ∧
      (VerifyOTPHandler cfg db (some req) nowCheck nowIssue signErr).response.cookies = []) := by
  have hnone := FindOneByPhone_none hno
  simp [RequestOTPHandler, VerifyOTPHandler, hnone, httpError]

/-- Witness for C10: a number that neither sample account has. -/
theorem unknown_phone_404_witness :
    (∀ u ∈ sampleStore, u.PhoneNumber ≠ strangerRequest.PhoneNumber) ∧
    (RequestOTPHandler sampleStore (some strangerRequest) 42 1700000000 false false).sms = [] ∧
    (VerifyOTPHandler sampleConfig sampleStore (some strangerRequest) 1700000000 1700000000
      false).response.status = 404 :=
  ⟨by decide,
   (unknown_phone_404 sampleConfig sampleStore strangerRequest 42 1700000000 1700000000
     1700000000 false false false (by decide)).1.2.2,
   (unknown_phone_404 sampleConfig sampleStore strangerRequest 42 1700000000 1700000000
     1700000000 false false false (by decide)).2.1⟩

/-! ## Signup: stored password -/

theorem SignUpHandler_ok (B : Bcrypt) (db : Store) (payload : User) (salt : List Nat)
    (freshID : Nat) (insertErr : Bool)
    (hok : (SignUpHandler B db (some payload) salt freshID insertErr).response.status = 200) :
    ∃ h, B.GenerateFromPassword payload.Password DefaultCost salt = some h ∧
      (SignUpHandler B db (some payload) salt freshID insertErr).store =
        db ++ [{ payload with
                  ID := if payload.ID = 0 then freshID else payload.ID, Password := h }] := by
  unfold SignUpHandler at hok ⊢
  cases hg : B.GenerateFromPassword payload.Password DefaultCost salt with
  | none =>
    simp [hg, httpError] at hok
  | some h =>
    simp only [hg] at hok ⊢
    refine ⟨h, rfl, ?_⟩
    by_cases herr : insertErr = true ∨
        (if payload.ID = 0 then freshID else payload.ID) ∈ db.map User.ID
    · have hins : InsertOneUser db { payload with Password := h } freshID insertErr = none := by
        simp only [InsertOneUser]
        exact if_pos herr
      rw [hins] at hok
      simp [httpError] at hok
    · have hins : InsertOneUser db { payload with Password := h } freshID insertErr =
          some (if payload.ID = 0 then freshID else payload.ID,
            db ++ [{ payload with
              ID := if payload.ID = 0 then freshID else payload.ID, Password := h }]) := by
        simp only [InsertOneUser]
        exact if_neg herr
      rw [hins]

/-- C11: for every signup payload that `SignUpHandler` accepts, the persisted
record is the payload with its password replaced by the bcrypt hash of the
submitted password; that hash is not the submitted password and validates
against it. Of bcrypt it is assumed that a hash validates against its password
and that no password is its own hash. -/
theorem SignUpHandler_stores_hash (B : Bcrypt) (db : Store) (payload : User)
    (salt : List Nat) (freshID : Nat) (insertErr : Bool)
    (hvalid : ∀ p s h, B.GenerateFromPassword p DefaultCost s = some h →
      B.CompareHashAndPassword h p = true)
    (hdistinct : ∀ p s, B.GenerateFromPassword p DefaultCost s ≠ some p)
    (hok : (SignUpHandler B db (some payload) salt freshID insertErr).response.status = 200) :
    ∃ h, B.GenerateFromPassword payload.Password DefaultCost salt = some h ∧
      (SignUpHandler B db (some payload) salt freshID insertErr).store =
        db ++ [{ payload with
                  ID := if payload.ID = 0 then freshID else payload.ID, Password := h }] ∧
      h ≠ payload.Password ∧
      B.CompareHashAndPassword h payload.Password = true := by
  obtain ⟨h, hg, hstore⟩ := SignUpHandler_ok B db payload salt freshID insertErr hok
  refine ⟨h, hg, hstore, ?_, hvalid _ _ _ hg⟩
  intro e
  rw [e] at hg
  exact hdistinct _ _ hg

theorem sampleBcrypt_distinct (p : String) (s : List Nat) :
    sampleBcrypt.GenerateFromPassword p DefaultCost s ≠ some p := by
  intro h
  have h1 : "$2a$10$" ++ p = p := by
    simpa [sampleBcrypt] using h
  have h2 := congrArg String.length h1
  rw [String.length_append] at h2
  have h3 : ("$2a$10$" : String).length = 7 := by decide
  omega

theorem sampleBcrypt_valid (p : String) (s : List Nat) (h : String)
    (hg : sampleBcrypt.GenerateFromPassword p DefaultCost s = some h) :
    sampleBcrypt.CompareHashAndPassword h p = true := by
  have h1 : "$2a$10$" ++ p = h := by
    simpa [sampleBcrypt] using hg
  simp [sampleBcrypt, h1]

/-- Witness for C11: the first sample payload signing up to the sample store. -/
theorem SignUpHandler_stores_hash_witness :
    (SignUpHandler sampleBcrypt sampleStore (some carolSignup) [] 3 false).response.status
      = 200 ∧
    ∃ h, sampleBcrypt.GenerateFromPassword carolSignup.Password DefaultCost [] = some h ∧
      (SignUpHandler sampleBcrypt sampleStore (some carolSignup) [] 3 false).store =
        sampleStore ++ [{ carolSignup with
          ID := if carolSignup.ID = 0 then 3 else carolSignup.ID, Password := h }] ∧
      h ≠ carolSignup.Password ∧
      sampleBcrypt.CompareHashAndPassword h carolSignup.Password = true :=
  ⟨by decide,
   SignUpHandler_stores_hash sampleBcrypt sampleStore carolSignup [] 3 false
     sampleBcrypt_valid sampleBcrypt_distinct (by decide)⟩

/-! ## Verification leaves the store alone -/

/-- C12: `VerifyOTPHandler` returns the store it was given on every path, so
the account's `otp` and `otp_expires_at` are the same before and after; and for
an account with stored code and expiry `e`, two successive verifications with
that code at seconds `t1 ≤ t2 ≤ e` both answer 200 with a cookie. -/
theorem VerifyOTPHandler_frame_replay (cfg : Config) (db : Store) :
    (∀ (body : Option OTPRequest) (nowCheck nowIssue : Int) (signErr : Bool),
      (VerifyOTPHandler cfg db body nowCheck nowIssue signErr).store = db) ∧
    (∀ (req : OTPRequest) (user : User) (t1 t2 i1 i2 : Int),
      FindOneByPhone db req.PhoneNumber = some user → req.OTP = user.OTP →
      t1 ≤ t2 → t2 ≤ user.OTPExpiresAt →
      (VerifyOTPHandler cfg db (some req) t1 i1 false).response.status = 200 ∧
      (VerifyOTPHandler cfg db (some req) t1 i1 false).response.cookies ≠ [] ∧
      FindOneByPhone (VerifyOTPHandler cfg db (some req) t1 i1 false).store req.PhoneNumber =
        some user ∧
      (VerifyOTPHandler cfg (VerifyOTPHandler cfg db (some req) t1 i1 false).store (some req)
        t2 i2 false).response.status = 200 ∧
      (VerifyOTPHandler cfg (VerifyOTPHandler cfg db (some req) t1 i1 false).store (some req)
        t2 i2 false).response.cookies ≠ []) := by
  have hframe : ∀ (body : Option OTPRequest) (nowCheck nowIssue : Int) (signErr : Bool),
      (VerifyOTPHandler cfg db body nowCheck nowIssue signErr).store = db := by
    intro body nowCheck nowIssue signErr
    unfold VerifyOTPHandler
    cases body with
    | none => rfl
    | some req =>
      simp only
      cases FindOneByPhone db req.PhoneNumber with
      | none => rfl
      | some user =>
        simp only
        split_ifs <;> rfl
  refine ⟨hframe, ?_⟩
  intro req user t1 t2 i1 i2 hfound hotp h12 h2e
  have hpass : ∀ (t i : Int), t ≤ user.OTPExpiresAt →
      (VerifyOTPHandler cfg db (some req) t i false).response.status = 200 ∧
      (VerifyOTPHandler cfg db (some req) t i false).response.cookies ≠ [] := by
    intro t i ht
    rw [VerifyOTPHandler_found cfg db req user t i false hfound]
    have hc : ¬ (user.OTP ≠ req.OTP ∨ t > user.OTPExpiresAt) := by
      rintro (h | h)
      · exact h hotp.symm
      · omega
    rw [if_neg hc]
    simp
  rw [hframe]
  exact ⟨(hpass t1 i1 (by omega)).1, (hpass t1 i1 (by omega)).2, hfound,
    (hpass t2 i2 h2e).1, (hpass t2 i2 h2e).2⟩

/-- Witness for C12: the first sample account verifying twice, at seconds
1700000000 and 1700000300. -/
theorem VerifyOTPHandler_frame_replay_witness :
    FindOneByPhone sampleStore aliceVerify.PhoneNumber = some alice ∧
    (VerifyOTPHandler sampleConfig sampleStore (some aliceVerify) 1700000000 1700000000
      false).store = sampleStore ∧
    (VerifyOTPHandler sampleConfig
      (VerifyOTPHandler sampleConfig sampleStore (some aliceVerify) 1700000000 1700000000
        false).store
      (some aliceVerify) 1700000300 1700000300 false).response.status = 200 :=
  ⟨by decide,
   (VerifyOTPHandler_frame_replay sampleConfig sampleStore).1 (some aliceVerify) 1700000000
     1700000000 false,
   ((VerifyOTPHandler_frame_replay sampleConfig sampleStore).2 aliceVerify alice 1700000000
     1700000300 1700000000 1700000300 (by decide) (by decide) (by decide)
     (by decide)).2.2.2.1⟩

/-! ## Accounts that never requested a code -/

theorem FindOneByPhone_append_new (db : Store) (u : User)
    (hno : ∀ v ∈ db, v.PhoneNumber ≠ u.PhoneNumber) :
    FindOneByPhone (db ++ [u]) u.PhoneNumber = some u := by
  have hnone := FindOneByPhone_none hno
  unfold FindOneByPhone at hnone ⊢
  rw [List.find?_append, hnone]
  simp

/-- C13: a signup payload that sets `otp` and a future `otp_expires_at` itself
is accepted and persisted with them, and the account it creates is answered 200
with a session cookie for that code although `RequestOTPHandler` was never
called; so it is not true that every code is answered 401 for such an
account. -/
theorem signup_preset_otp_verifies :
    (SignUpHandler sampleBcrypt sampleStore (some eveSignup) [] 3 false).response.status = 200 ∧
    (∀ u ∈ sampleStore, u.PhoneNumber ≠ eveSignup.PhoneNumber) ∧
    (FindOneByPhone eveStore "+15550004444").map (fun u => (u.OTP, u.OTPExpiresAt)) =
      some ("000000", 4102444800) ∧
    (VerifyOTPHandler sampleConfig eveStore
      (some { PhoneNumber := "+15550004444", OTP := "000000" }) 1700000000 1700000000
      false).response.status = 200 ∧
    (VerifyOTPHandler sampleConfig eveStore
      (some { PhoneNumber := "+15550004444", OTP := "000000" }) 1700000000 1700000000
      false).response.cookies.map (fun c => c.Value.claims?.map Claims.Username) =
        [some "eve"] ∧
    ¬ (∀ (code : String) (now : Int), 0 < now →
        (VerifyOTPHandler sampleConfig eveStore
          (some { PhoneNumber := "+15550004444", OTP := code }) now now
          false).response.status = 401) := by
  refine ⟨by decide, by decide, by decide, by decide, by decide, ?_⟩
  intro h
  have h1 := h "000000" 1700000000 (by decide)
  have h2 : (VerifyOTPHandler sampleConfig eveStore
      (some { PhoneNumber := "+15550004444", OTP := "000000" }) 1700000000 1700000000
      false).response.status = 200 := by decide
  rw [h2] at h1
  exact absurd h1 (by decide)

/-- The extent of the gap behind `eveSignup`: for an account created by
`SignUpHandler` from an accepted payload whose phone number no earlier account
has, `VerifyOTPHandler` answers 401 to every submitted code (the empty string
included) at every second after the epoch exactly when the payload's
`otp_expires_at` is absent or not positive. -/
theorem signup_unset_otp_rejected (B : Bcrypt) (cfg : Config) (db : Store) (payload : User)
    (salt : List Nat) (freshID : Nat) (insertErr : Bool)
    (hphone : ∀ u ∈ db, u.PhoneNumber ≠ payload.PhoneNumber)
    (hok : (SignUpHandler B db (some payload) salt freshID insertErr).response.status = 200) :
    (∀ (code : String) (nowCheck nowIssue : Int) (signErr : Bool), 0 < nowCheck →
      (VerifyOTPHandler cfg (SignUpHandler B db (some payload) salt freshID insertErr).store
        (some { PhoneNumber := payload.PhoneNumber, OTP := code }) nowCheck nowIssue
        signErr).response = httpError "Invalid or expired OTP" 401) ↔
    payload.OTPExpiresAt ≤ 0 := by
  obtain ⟨h, _, hstore⟩ := SignUpHandler_ok B db payload salt freshID insertErr hok
  rw [hstore]
  have hfound : ∀ code : String,
      FindOneByPhone
        (db ++ [{ payload with
          ID := if payload.ID = 0 then freshID else payload.ID, Password := h }])
        ({ PhoneNumber := payload.PhoneNumber, OTP := code } : OTPRequest).PhoneNumber =
      some { payload with
        ID := if payload.ID = 0 then freshID else payload.ID, Password := h } := by
    intro code
    exact FindOneByPhone_append_new db
      { payload with ID := if payload.ID = 0 then freshID else payload.ID, Password := h }
      hphone
  constructor
  · intro hall
    by_contra hpos
    have h1 := hall payload.OTP 1 0 false (by decide)
    rw [VerifyOTPHandler_found cfg _ _ _ 1 0 false (hfound payload.OTP)] at h1
    have hc : ¬ (payload.OTP ≠ payload.OTP ∨ (1 : Int) > payload.OTPExpiresAt) := by
      rintro (hne | hgt)
      · exact hne rfl
      · omega
    simp only at h1
    rw [if_neg hc] at h1
    simp [httpError] at h1
  · intro hexp code nowCheck nowIssue signErr hnow
    rw [VerifyOTPHandler_found cfg _ _ _ nowCheck nowIssue signErr (hfound code)]
    have hc : payload.OTP ≠ code ∨ nowCheck > payload.OTPExpiresAt := Or.inr (by omega)
    simp only
    rw [if_pos hc]

/-- The payload without OTP fields signs up to the sample store, and the empty
code is refused one second after the epoch. -/
theorem signup_unset_otp_rejected_witness :
    (∀ u ∈ sampleStore, u.PhoneNumber ≠ carolSignup.PhoneNumber) ∧
    (SignUpHandler sampleBcrypt sampleStore (some carolSignup) [] 3 false).response.status
      = 200 ∧
    carolSignup.OTPExpiresAt ≤ 0 ∧
    (VerifyOTPHandler sampleConfig
      (SignUpHandler sampleBcrypt sampleStore (some carolSignup) [] 3 false).store
      (some { PhoneNumber := carolSignup.PhoneNumber, OTP := "" }) 1 1 false).response =
      httpError "Invalid or expired OTP" 401 :=
  ⟨by decide, by decide, by decide,
   (signup_unset_otp_rejected sampleBcrypt sampleConfig sampleStore carolSignup [] 3 false
     (by decide) (by decide)).mpr (by decide) "" 1 1 false (by decide)⟩

/-! ## Orders: create, cancel, list -/

theorem CancelOrderHandler_other_database (c : Client) (orderID : Nat) (updateErr : Bool) :
    (CancelOrderHandler c orderID updateErr).client "customer_vendor_api" =
      c "customer_vendor_api" := by
  unfold CancelOrderHandler
  split
  · rfl
  · simp only [Client.withOrders]
    rw [if_neg (by decide)]

/-- C14: the sample order is stored with status "Pending" although its body
said "Delivered"; the cancel call with its id answers 200, but updates the
`orders` collection of database "adonai-api", so the listing for the order's
user still returns it with status "Pending", not "Cancelled". -/
theorem CancelOrderHandler_leaves_pending :
    (CreateOrderHandler emptyClient teaOrder 1700000000 501 false).status = 200 ∧
    teaClient "customer_vendor_api" =
      [{ teaOrder with ID := 501, OrderStatus := "Pending", CreationDate := 1700000000 }] ∧
    (CancelOrderHandler teaClient 501 false).status = 200 ∧
    (CancelOrderHandler teaClient 501 false).client "adonai-api" = [] ∧
    (GetUserOrdersHandler (CancelOrderHandler teaClient 501 false).client 7 false).status = 200 ∧
    (GetUserOrdersHandler (CancelOrderHandler teaClient 501 false).client 7 false).orders =
      [{ teaOrder with ID := 501, OrderStatus := "Pending", CreationDate := 1700000000 }] := by
  decide

end Erp
